import Mathlib

/-
Verification of the squangle completion-bridging and metrics layer.

Shallow embedding of:
  - src/squangle/logger/DBEventCounter.cpp
      (ExponentialMovingAverage::addSample, SimpleDbCounter::printStats)
  - src/squangle/logger/DBEventLogger.h
      (FailureReason, OperationType, DBLoggerBase::FailureString,
       CommonLoggingData, QueryLoggingData)
  - src/squangle/mysql_client/FutureAdapter.h
      (toSemiFuture / toFuture declarations; the implementation file is not in
       the repository snapshot, so the adapter behaviour is modelled from the
       specification where noted)

C++ doubles are modelled as rationals (ℚ); C++ unsigned/int counters as Nat/Int;
unordered string maps as association lists.
-/

namespace Squangle

/-- Embeds `enum class FailureReason` from DBEventLogger.h: the closed
classification of why an operation failed. -/
inductive FailureReason where
  | BAD_USAGE
  | TIMEOUT
  | CANCELLED
  | DATABASE_ERROR
deriving DecidableEq, Repr

/-- Embeds `enum class OperationType` from DBEventLogger.h. -/
inductive OperationType where
  | None
  | Query
  | MultiQuery
  | MultiQueryStream
  | Connect
  | PoolConnect
  | Locator
  | TestDatabase
deriving DecidableEq, Repr

/-- Underlying integer value of a `FailureReason` enumerator; C++ `enum class`
enumerators without explicit values count up from 0 in declaration order. -/
def failureReasonValue : FailureReason → Int
  | .BAD_USAGE => 0
  | .TIMEOUT => 1
  | .CANCELLED => 2
  | .DATABASE_ERROR => 3

/-- Embeds the `switch` body of `DBLoggerBase::FailureString`
(DBEventLogger.h lines 154-166) over the underlying integer value of the
enum; a C++ `enum class` variable may hold any value of its underlying type,
and values outside the four enumerators fall through the `switch` to the
trailing `return "(should not happen)"`. -/
def FailureStringSwitch (reason : Int) : String :=
  if reason = failureReasonValue .BAD_USAGE then "BadUsage"
  else if reason = failureReasonValue .TIMEOUT then "Timeout"
  else if reason = failureReasonValue .CANCELLED then "Cancelled"
  else if reason = failureReasonValue .DATABASE_ERROR then "DatabaseError"
  else "(should not happen)"

/-- The `FailureString` member applied to a well-formed enumerator. -/
def FailureString (reason : FailureReason) : String :=
  FailureStringSwitch (failureReasonValue reason)

/-- Embeds the `ExponentialMovingAverage` accumulator state declared in
DBEventCounter.h and updated in DBEventCounter.cpp. -/
structure ExponentialMovingAverage where
  smoothingFactor_ : ℚ
  currentValue_ : ℚ
  hasRegisteredFirstSample_ : Bool
deriving DecidableEq, Repr

/-- Embeds the `ExponentialMovingAverage(double smoothingFactor)` constructor
(DBEventCounter.cpp lines 15-16): it stores the smoothing factor; the other
fields start out as declared in the header (not in src/), per the spec §3:
before the first sample `hasSample` is false and `currentValue` is unused
(modelled as 0). -/
def ExponentialMovingAverage.construct (smoothingFactor : ℚ) :
    ExponentialMovingAverage :=
  { smoothingFactor_ := smoothingFactor
    currentValue_ := 0
    hasRegisteredFirstSample_ := false }

/-- Embeds `ExponentialMovingAverage::addSample` (DBEventCounter.cpp
lines 18-26). -/
def ExponentialMovingAverage.addSample (e : ExponentialMovingAverage)
    (sample : ℚ) : ExponentialMovingAverage :=
  if e.hasRegisteredFirstSample_ then
    { e with
      currentValue_ :=
        e.smoothingFactor_ * sample +
          (1 - e.smoothingFactor_) * e.currentValue_ }
  else
    { e with currentValue_ := sample, hasRegisteredFirstSample_ := true }

/-- Embeds the counter state of `SimpleDbCounter` (declared in
DBEventCounter.h, read by DBEventCounter.cpp): five integer counters. -/
structure SimpleDbCounter where
  opened_ : Nat
  closed_ : Nat
  failed_ : Nat
  succeeded_ : Nat
  reusedSSL_ : Nat
deriving DecidableEq, Repr

/-- Modelled from the spec: the read accessor `numOpenedConnections` lives in
DBEventCounter.h, which is not in src/; §4.2 specifies plain read accessors
for each counter. -/
def SimpleDbCounter.numOpenedConnections (s : SimpleDbCounter) : Nat :=
  s.opened_

/-- Modelled from the spec: read accessor from DBEventCounter.h (not in src/). -/
def SimpleDbCounter.numClosedConnections (s : SimpleDbCounter) : Nat :=
  s.closed_

/-- Modelled from the spec: read accessor from DBEventCounter.h (not in src/). -/
def SimpleDbCounter.numFailedQueries (s : SimpleDbCounter) : Nat :=
  s.failed_

/-- Modelled from the spec: read accessor from DBEventCounter.h (not in src/). -/
def SimpleDbCounter.numSucceededQueries (s : SimpleDbCounter) : Nat :=
  s.succeeded_

/-- Modelled from the spec: read accessor from DBEventCounter.h (not in src/). -/
def SimpleDbCounter.numReusedSSLSessions (s : SimpleDbCounter) : Nat :=
  s.reusedSSL_

/-- Embeds `SimpleDbCounter::printStats` (DBEventCounter.cpp lines 28-35):
the `LOG(INFO)` stream insertion chain is modelled as the rendered message
string, and the counter state is threaded through so that the method's effect
on the state is explicit. -/
def SimpleDbCounter.printStats (s : SimpleDbCounter) :
    String × SimpleDbCounter :=
  ("Client Stats\n" ++
    "Opened Connections " ++ Nat.repr s.numOpenedConnections ++ "\n" ++
    "Closed Connections " ++ Nat.repr s.numClosedConnections ++ "\n" ++
    "Failed Queries " ++ Nat.repr s.numFailedQueries ++ "\n" ++
    "Succeeded Queries " ++ Nat.repr s.numSucceededQueries ++ "\n" ++
    "Reused SSL Sessions " ++ Nat.repr s.numReusedSSLSessions ++ "\n",
   s)

/-- The five counter labels in the order `printStats` renders them, written
as the spec (§6, report string) describes the report lines. -/
def counterLabels : List String :=
  ["Opened Connections", "Closed Connections", "Failed Queries",
   "Succeeded Queries", "Reused SSL Sessions"]

/-- The five counter values in report order. -/
def counterValues (s : SimpleDbCounter) : List Nat :=
  [s.numOpenedConnections, s.numClosedConnections, s.numFailedQueries,
   s.numSucceededQueries, s.numReusedSSLSessions]

/-- Report lines as the spec describes them: one line per counter, of the
form `<Label> <value>`, in fixed order. -/
def specReportLines (s : SimpleDbCounter) : List String :=
  List.zipWith (fun label v => label ++ " " ++ Nat.repr v)
    counterLabels (counterValues s)

/-- Embeds `Duration` from DBEventLogger.h (`std::chrono::duration<uint64_t,
std::micro>`), modelled as a count of microseconds. -/
def Duration : Type := Nat

/-- Embeds `struct CommonLoggingData` (DBEventLogger.h lines 82-87). -/
structure CommonLoggingData where
  operation_type : OperationType
  operation_duration : Duration

/-- Embeds `struct QueryLoggingData` (DBEventLogger.h lines 89-117); the two
`unordered_map<string, string>` attribute maps are modelled as association
lists. -/
structure QueryLoggingData extends CommonLoggingData where
  queries_executed : Int
  query : String
  rows_received : Int
  result_size : Nat
  no_index_used : Bool
  query_attributes : List (String × String)
  response_attributes : List (String × String)

/-- Embeds the `QueryLoggingData` constructor (DBEventLogger.h lines 90-109)
with every argument supplied explicitly: each argument is stored in the
corresponding field, via the delegated `CommonLoggingData` constructor for
the first two. -/
def mkQueryLoggingData (op : OperationType) (duration : Duration)
    (queries : Int) (queryString : String) (rows : Int) (resultSize : Nat)
    (noIndexUsed : Bool) (queryAttributes : List (String × String))
    (responseAttributes : List (String × String)) : QueryLoggingData :=
  { toCommonLoggingData := ⟨op, duration⟩
    queries_executed := queries
    query := queryString
    rows_received := rows
    result_size := resultSize
    no_index_used := noIndexUsed
    query_attributes := queryAttributes
    response_attributes := responseAttributes }

/-- The `QueryLoggingData` constructor called with every optional argument
omitted: the C++ default arguments (DBEventLogger.h lines 96-101) are
`resultSize = 0`, `noIndexUsed = false`, and empty attribute maps. -/
def mkQueryLoggingDataNoOptionals (op : OperationType) (duration : Duration)
    (queries : Int) (queryString : String) (rows : Int) : QueryLoggingData :=
  mkQueryLoggingData op duration queries queryString rows 0 false [] []

/-- Modelled from the spec: the counter-increment members of `SimpleDbCounter`
live in DBEventCounter.h, which is not in src/; §4.2 specifies
`incrementOpenedConnections` as an atomic integer increment. -/
def SimpleDbCounter.incrementOpenedConnections (s : SimpleDbCounter) :
    SimpleDbCounter :=
  { s with opened_ := s.opened_ + 1 }

/-- Modelled from the spec: atomic increment from DBEventCounter.h (not in
src/), §4.2. -/
def SimpleDbCounter.incrementClosedConnections (s : SimpleDbCounter) :
    SimpleDbCounter :=
  { s with closed_ := s.closed_ + 1 }

/-- Modelled from the spec: atomic increment from DBEventCounter.h (not in
src/), §4.2. -/
def SimpleDbCounter.incrementFailedQueries (s : SimpleDbCounter) :
    SimpleDbCounter :=
  { s with failed_ := s.failed_ + 1 }

/-- Modelled from the spec: atomic increment from DBEventCounter.h (not in
src/), §4.2. -/
def SimpleDbCounter.incrementSucceededQueries (s : SimpleDbCounter) :
    SimpleDbCounter :=
  { s with succeeded_ := s.succeeded_ + 1 }

/-- Modelled from the spec: atomic increment from DBEventCounter.h (not in
src/), §4.2. -/
def SimpleDbCounter.incrementReusedSSLSessions (s : SimpleDbCounter) :
    SimpleDbCounter :=
  { s with reusedSSL_ := s.reusedSSL_ + 1 }

/-- The five counter kinds of the registry, used to model interleaved
increment events. -/
inductive CounterKind where
  | openedConnections
  | closedConnections
  | failedQueries
  | succeededQueries
  | reusedSSLSessions
deriving DecidableEq, Repr

/-- Dispatches one increment event of the given kind to the corresponding
`SimpleDbCounter` increment member. -/
def applyIncrement (s : SimpleDbCounter) (k : CounterKind) : SimpleDbCounter :=
  match k with
  | .openedConnections => s.incrementOpenedConnections
  | .closedConnections => s.incrementClosedConnections
  | .failedQueries => s.incrementFailedQueries
  | .succeededQueries => s.incrementSucceededQueries
  | .reusedSSLSessions => s.incrementReusedSSLSessions

/-- Reads the counter of the given kind. -/
def counterOf (s : SimpleDbCounter) (k : CounterKind) : Nat :=
  match k with
  | .openedConnections => s.numOpenedConnections
  | .closedConnections => s.numClosedConnections
  | .failedQueries => s.numFailedQueries
  | .succeededQueries => s.numSucceededQueries
  | .reusedSSLSessions => s.numReusedSSLSessions

/-- Modelled from the spec: §5 states every increment is an atomic integer
operation, so a set of concurrent completions is modelled as an arbitrary
interleaving — a list of indivisible increment events applied in sequence. -/
def runIncrements (s : SimpleDbCounter) (events : List CounterKind) :
    SimpleDbCounter :=
  events.foldl applyIncrement s

/-- The all-zero counter state a registry starts from. -/
def zeroCounter : SimpleDbCounter := ⟨0, 0, 0, 0, 0⟩

/-- Modelled from the spec: the terminal outcome of an `Operation`
(FutureAdapter.h declares the adapter over `Operation`s, whose definition is
not in src/); §3 and §4.4 describe a single-fire unit of work ending in
success with a typed payload, or failure/cancellation carrying a
`FailureReason`, a backend numeric code and a message. Cancellation is the
terminal outcome tagged `FailureReason.CANCELLED`. -/
inductive Outcome (V : Type) where
  | success (value : V)
  | failure (reason : FailureReason) (code : Nat) (msg : String)
deriving DecidableEq, Repr

/-- Modelled from the spec: the typed error the adapter places on the future
when the operation fails or is cancelled (§4.4 step 4: "a typed error
carrying the FailureReason and diagnostic message"). -/
structure OpError where
  reason : FailureReason
  code : Nat
  msg : String
deriving DecidableEq, Repr

/-- Modelled from the spec: how the adapter turns the operation's single
terminal outcome into the future's settlement (§4.4 step 4): success
fulfills with the payload, failure or cancellation fulfills with the typed
error. -/
def adaptOutcome {V : Type} : Outcome V → Except OpError V
  | .success v => .ok v
  | .failure reason code msg => .error ⟨reason, code, msg⟩

/-- Modelled from the spec: the events visible to the adapter — the caller
attaches the completion observer, or the operation reaches its terminal
outcome. The two may occur in either order (§5). -/
inductive AdapterEvent (V : Type) where
  | attach
  | complete (o : Outcome V)

/-- Modelled from the spec: the state of one adapter/operation pair —
whether the operation has completed (and with what outcome), whether the
observer is attached, whether the adapter still holds its strong reference
to the operation, the promise settlement, and how many times the promise
was fulfilled. -/
structure AdapterState (V : Type) where
  opOutcome : Option (Outcome V)
  attached : Bool
  opRefHeld : Bool
  future : Option (Except OpError V)
  settleCount : Nat

/-- Modelled from the spec (§4.4): initial adapter state right after the
promise/future pair is created and the strong reference to the operation is
acquired (steps 1-2); nothing attached, nothing completed, promise unset. -/
def AdapterState.start (V : Type) : AdapterState V :=
  { opOutcome := none
    attached := false
    opRefHeld := true
    future := none
    settleCount := 0 }

/-- Modelled from the spec: one adapter step (§4.4 steps 3-5). Attaching the
observer when the operation has already completed immediately re-delivers
the stored outcome (step 5, no missed wakeup); a completion with the
observer attached fulfills the promise once and releases the strong
reference (step 4); completion fires at most once by the `Operation`
contract (§6), so a second completion is ignored. -/
def adapterStep {V : Type} (s : AdapterState V) :
    AdapterEvent V → AdapterState V
  | .attach =>
    match s.opOutcome, s.future with
    | some o, none =>
      { s with
        attached := true
        future := some (adaptOutcome o)
        settleCount := s.settleCount + 1
        opRefHeld := false }
    | _, _ => { s with attached := true }
  | .complete o =>
    match s.opOutcome with
    | some _ => s
    | none =>
      match s.attached, s.future with
      | true, none =>
        { s with
          opOutcome := some o
          future := some (adaptOutcome o)
          settleCount := s.settleCount + 1
          opRefHeld := false }
      | _, _ => { s with opOutcome := some o }

/-- Modelled from the spec: run of the adapter over a sequence of events,
starting from the freshly-constructed state. -/
def runAdapter {V : Type} (events : List (AdapterEvent V)) : AdapterState V :=
  events.foldl adapterStep (AdapterState.start V)

/-- Modelled from the spec: the raw-pointer overloads of `toSemiFuture` /
`toFuture` (FutureAdapter.h lines 34, 38, 42, 48, 52, 56; implementation not
in src/) — the adapter itself extends ownership of the operation (§4.4 steps
2, 6), then observes events. The settled future is the run's `future`
field. -/
def toFutureFromRawPtr {V : Type} (events : List (AdapterEvent V)) :
    Option (Except OpError V) :=
  (runAdapter events).future

/-- Modelled from the spec: the value-owning-handle (`shared_ptr`) overloads
of `toSemiFuture` / `toFuture` (FutureAdapter.h lines 35, 39, 44, 49, 53,
57; implementation not in src/) — ownership extension is already guaranteed
by the caller's handle (§4.4 step 6); the observed behaviour of the run is
the same. -/
def toFutureFromSharedPtr {V : Type} (events : List (AdapterEvent V)) :
    Option (Except OpError V) :=
  (runAdapter events).future

/-- Modelled from the spec: a `folly::SemiFuture` as the adapter consumers
see it — either not yet settled, or settled with a value or a typed error. -/
def SemiFuture (V : Type) : Type := Option (Except OpError V)

/-- Modelled from the spec: a `folly::Future`, the executor-attached
counterpart of a `SemiFuture`, carrying the same settlement channel. -/
structure Future (V : Type) where
  result : Option (Except OpError V)

/-- Modelled from the spec: the trivial pass-through overloads
`toFuture(folly::SemiFuture<...>&&)` (FutureAdapter.h lines 61-64;
implementation not in src/) — §4.4 step 7 calls them identity adaptations:
the returned future carries exactly the input semifuture's settlement. -/
def toFutureOfSemi {V : Type} (f : SemiFuture V) : Future V :=
  ⟨f⟩

/-- Reads the counter of kind `k` after an interleaved event sequence:
each atomic increment event of kind `k` adds exactly one to that counter and
leaves the other counters untouched. Auxiliary lemma for the concurrent
counting claim. -/
theorem counterOf_applyIncrement (s : SimpleDbCounter) (k j : CounterKind) :
    counterOf (applyIncrement s k) j =
      counterOf s j + (if k = j then 1 else 0) := by
  cases k <;> cases j <;>
    simp [applyIncrement, counterOf,
      SimpleDbCounter.incrementOpenedConnections,
      SimpleDbCounter.incrementClosedConnections,
      SimpleDbCounter.incrementFailedQueries,
      SimpleDbCounter.incrementSucceededQueries,
      SimpleDbCounter.incrementReusedSSLSessions,
      SimpleDbCounter.numOpenedConnections,
      SimpleDbCounter.numClosedConnections,
      SimpleDbCounter.numFailedQueries,
      SimpleDbCounter.numSucceededQueries,
      SimpleDbCounter.numReusedSSLSessions]

/-- Running an interleaved increment-event sequence adds, to each counter,
exactly the number of events of that counter's kind. -/
theorem counterOf_runIncrements (events : List CounterKind)
    (s : SimpleDbCounter) (k : CounterKind) :
    counterOf (runIncrements s events) k = counterOf s k + events.count k := by
  induction events generalizing s with
  | nil => simp [runIncrements, List.count_nil]
  | cons e rest ih =>
    have hstep := counterOf_applyIncrement s e k
    have : runIncrements s (e :: rest) = runIncrements (applyIncrement s e) rest := rfl
    rw [this, ih, hstep, List.count_cons]
    by_cases h : e = k
    · subst h
      simp
      omega
    · have hne : ¬(k == e) = true := by
        simp [beq_iff_eq]
        exact fun hc => h hc.symm
      simp [h, hne]

/-- C1: a first `addSample x` on an unseeded accumulator sets
`currentValue_` to exactly `x` and marks the accumulator seeded; every
subsequent `addSample x` updates `currentValue_` to
`α·x + (1-α)·currentValue_` and keeps it seeded; in particular, with
`α = 0.5` and samples 10, 20, 30 fed in order, `currentValue_` takes the
values 10, 15, 22.5 after the successive calls. -/
theorem addSample_seeds_then_blends :
    (∀ α c x : ℚ,
      ExponentialMovingAverage.addSample ⟨α, c, false⟩ x = ⟨α, x, true⟩) ∧
    (∀ α c x : ℚ,
      ExponentialMovingAverage.addSample ⟨α, c, true⟩ x =
        ⟨α, α * x + (1 - α) * c, true⟩) ∧
    (((ExponentialMovingAverage.construct (1/2)).addSample 10).currentValue_
        = 10 ∧
      ((ExponentialMovingAverage.construct (1/2)).addSample 10).hasRegisteredFirstSample_
        = true ∧
      (((ExponentialMovingAverage.construct (1/2)).addSample 10).addSample
          20).currentValue_ = 15 ∧
      ((((ExponentialMovingAverage.construct (1/2)).addSample 10).addSample
          20).addSample 30).currentValue_ = 45/2) := by
  refine ⟨fun α c x => rfl, fun α c x => rfl, ?_, rfl, ?_, ?_⟩
  · norm_num [ExponentialMovingAverage.construct,
      ExponentialMovingAverage.addSample]
  · norm_num [ExponentialMovingAverage.construct,
      ExponentialMovingAverage.addSample]
  · norm_num [ExponentialMovingAverage.construct,
      ExponentialMovingAverage.addSample]

/-- C5: `FailureString` maps each of the four enumerators to its display
string, and the underlying `switch` maps any integer value outside the
enumeration to the sentinel diagnostic string. -/
theorem FailureString_total :
    (FailureString .BAD_USAGE = "BadUsage" ∧
      FailureString .TIMEOUT = "Timeout" ∧
      FailureString .CANCELLED = "Cancelled" ∧
      FailureString .DATABASE_ERROR = "DatabaseError") ∧
    ∀ v : Int, v ≠ 0 → v ≠ 1 → v ≠ 2 → v ≠ 3 →
      FailureStringSwitch v = "(should not happen)" := by
  refine ⟨⟨rfl, rfl, rfl, rfl⟩, fun v h0 h1 h2 h3 => ?_⟩
  simp [FailureStringSwitch, failureReasonValue, h0, h1, h2, h3]

/-- Evaluates `FailureString_total` at the concrete out-of-enumeration
underlying value 7. -/
theorem FailureString_total_witness :
    (7 : Int) ≠ 0 ∧ FailureStringSwitch 7 = "(should not happen)" :=
  ⟨by decide,
    FailureString_total.2 7 (by decide) (by decide) (by decide) (by decide)⟩

/-- C9: `printStats` never modifies the counter state: every one of the five
counters reads the same before and after the call, and the whole state is
unchanged. -/
theorem printStats_preserves_counters (s : SimpleDbCounter) :
    (s.printStats.2.numOpenedConnections = s.numOpenedConnections ∧
      s.printStats.2.numClosedConnections = s.numClosedConnections ∧
      s.printStats.2.numFailedQueries = s.numFailedQueries ∧
      s.printStats.2.numSucceededQueries = s.numSucceededQueries ∧
      s.printStats.2.numReusedSSLSessions = s.numReusedSSLSessions) ∧
    s.printStats.2 = s :=
  ⟨⟨rfl, rfl, rfl, rfl, rfl⟩, rfl⟩

/-- C10: the `QueryLoggingData` constructor stores each argument unchanged
in the corresponding field, and when the optional arguments are omitted the
defaults are `result_size = 0`, `no_index_used = false`, and empty
`query_attributes` and `response_attributes` maps. -/
theorem mkQueryLoggingData_fields :
    (∀ (op : OperationType) (d : Duration) (q : Int) (qt : String) (r : Int)
        (rs : Nat) (niu : Bool) (qa ra : List (String × String)),
      (mkQueryLoggingData op d q qt r rs niu qa ra).operation_type = op ∧
      (mkQueryLoggingData op d q qt r rs niu qa ra).operation_duration = d ∧
      (mkQueryLoggingData op d q qt r rs niu qa ra).queries_executed = q ∧
      (mkQueryLoggingData op d q qt r rs niu qa ra).query = qt ∧
      (mkQueryLoggingData op d q qt r rs niu qa ra).rows_received = r ∧
      (mkQueryLoggingData op d q qt r rs niu qa ra).result_size = rs ∧
      (mkQueryLoggingData op d q qt r rs niu qa ra).no_index_used = niu ∧
      (mkQueryLoggingData op d q qt r rs niu qa ra).query_attributes = qa ∧
      (mkQueryLoggingData op d q qt r rs niu qa ra).response_attributes = ra) ∧
    (∀ (op : OperationType) (d : Duration) (q : Int) (qt : String) (r : Int),
      (mkQueryLoggingDataNoOptionals op d q qt r).result_size = 0 ∧
      (mkQueryLoggingDataNoOptionals op d q qt r).no_index_used = false ∧
      (mkQueryLoggingDataNoOptionals op d q qt r).query_attributes = [] ∧
      (mkQueryLoggingDataNoOptionals op d q qt r).response_attributes = []) :=
  ⟨fun _ _ _ _ _ _ _ _ _ =>
      ⟨rfl, rfl, rfl, rfl, rfl, rfl, rfl, rfl, rfl⟩,
    fun _ _ _ _ _ => ⟨rfl, rfl, rfl, rfl⟩⟩

/-- C2: for every Operation outcome, the adapted future settles exactly
once — with the success payload when the operation succeeds and with the
typed error otherwise — whether the observer attaches before or after the
terminal outcome, so the future is never left unsettled; and the
raw-pointer and value-owning-handle overloads of the adapter produce the
same settlement on every event sequence. -/
theorem adapter_settles_exactly_once :
    ∀ (V : Type) (o : Outcome V),
      ((runAdapter [AdapterEvent.attach, AdapterEvent.complete o]).future =
          some (adaptOutcome o) ∧
        (runAdapter [AdapterEvent.attach,
          AdapterEvent.complete o]).settleCount = 1) ∧
      ((runAdapter [AdapterEvent.complete o, AdapterEvent.attach]).future =
          some (adaptOutcome o) ∧
        (runAdapter [AdapterEvent.complete o,
          AdapterEvent.attach]).settleCount = 1) ∧
      (∀ v : V, adaptOutcome (Outcome.success v) = Except.ok v) ∧
      (∀ (r : FailureReason) (c : Nat) (m : String),
        adaptOutcome (Outcome.failure r c m : Outcome V) =
          Except.error ⟨r, c, m⟩) ∧
      (∀ events : List (AdapterEvent V),
        toFutureFromRawPtr events = toFutureFromSharedPtr events) :=
  fun _ _ =>
    ⟨⟨rfl, rfl⟩, ⟨rfl, rfl⟩, fun _ => rfl, fun _ _ _ => rfl, fun _ => rfl⟩

/-- C3: when the operation has already reached its terminal outcome before
the observer is attached, the future still settles — exactly once — with
that stored outcome: the completion is re-delivered at attach time, never
lost. -/
theorem adapter_attach_after_completion :
    ∀ (V : Type) (o : Outcome V),
      (runAdapter [AdapterEvent.complete o, AdapterEvent.attach]).future =
        some (adaptOutcome o) ∧
      (runAdapter [AdapterEvent.complete o,
        AdapterEvent.attach]).settleCount = 1 ∧
      (runAdapter [AdapterEvent.complete o,
        AdapterEvent.attach]).opOutcome = some o :=
  fun _ _ => ⟨rfl, rfl, rfl⟩

/-- C4: an operation cancelled before completing settles the adapted future
with a typed error whose reason is `CANCELLED` — never successfully and
never leaving it unsettled — and `CANCELLED` is distinct from `TIMEOUT`,
`DATABASE_ERROR` and `BAD_USAGE`. -/
theorem adapter_cancellation_reason :
    ∀ (V : Type) (c : Nat) (m : String),
      (runAdapter (V := V) [AdapterEvent.attach,
          AdapterEvent.complete (Outcome.failure .CANCELLED c m)]).future =
        some (Except.error ⟨.CANCELLED, c, m⟩) ∧
      (runAdapter (V := V) [AdapterEvent.attach,
          AdapterEvent.complete
            (Outcome.failure .CANCELLED c m)]).settleCount = 1 ∧
      (∀ v : V,
        (runAdapter (V := V) [AdapterEvent.attach,
            AdapterEvent.complete
              (Outcome.failure .CANCELLED c m)]).future ≠
          some (Except.ok v)) ∧
      FailureReason.CANCELLED ≠ FailureReason.TIMEOUT ∧
      FailureReason.CANCELLED ≠ FailureReason.DATABASE_ERROR ∧
      FailureReason.CANCELLED ≠ FailureReason.BAD_USAGE := by
  intro V c m
  refine ⟨rfl, rfl, fun v hv => ?_, by decide, by decide, by decide⟩
  have : Except.error (ε := OpError) ⟨FailureReason.CANCELLED, c, m⟩ =
      Except.ok v := by
    have h2 := Option.some.inj (rfl.trans hv : some _ = some _)
    exact h2
  exact Except.noConfusion this

/-- C6: `printStats` renders a fixed-order multi-line report whose body is
exactly one line per counter, each of the form `<Label> <value>`, for the
five counters in order: opened connections, closed connections, failed
queries, succeeded queries, reused SSL sessions; the five labels are
pairwise distinct. -/
theorem printStats_report_shape (s : SimpleDbCounter) :
    s.printStats.1 =
      "Client Stats\n" ++
        String.join ((specReportLines s).map (fun line => line ++ "\n")) ∧
    specReportLines s =
      ["Opened Connections " ++ Nat.repr s.numOpenedConnections,
        "Closed Connections " ++ Nat.repr s.numClosedConnections,
        "Failed Queries " ++ Nat.repr s.numFailedQueries,
        "Succeeded Queries " ++ Nat.repr s.numSucceededQueries,
        "Reused SSL Sessions " ++ Nat.repr s.numReusedSSLSessions] ∧
    (specReportLines s).length = 5 ∧
    counterLabels.Nodup := by
  refine ⟨?_, ?_, ?_, by decide⟩
  · apply String.ext
    simp [SimpleDbCounter.printStats, specReportLines, counterLabels,
      counterValues, String.join, String.data_append]
  · simp [specReportLines, counterLabels, counterValues]
  · rfl

/-- C7: the pass-through overloads of `toFuture` that accept an
already-produced semifuture are identity adaptations: the returned future
carries exactly the same settlement — same value or same typed error, or
still pending — as the input semifuture, for every payload type. -/
theorem toFuture_passthrough_identity :
    ∀ (V : Type) (f : SemiFuture V), (toFutureOfSemi f).result = f :=
  fun _ _ => rfl

/-- C8: when N independent completions are interleaved in any order, each
contributing exactly one atomic increment event of its kind, the final
value of a counter that received N increments from the zero state is
exactly N: no increment is lost and none is double-counted. -/
theorem concurrent_increments_count (events : List CounterKind)
    (k : CounterKind) (N : Nat) (h : events.count k = N) :
    counterOf (runIncrements zeroCounter events) k = N := by
  rw [counterOf_runIncrements, h]
  have h0 : counterOf zeroCounter k = 0 := by cases k <;> rfl
  omega

/-- Evaluates `concurrent_increments_count` on a concrete interleaving of
three completions, two of them succeeded-query completions. -/
theorem concurrent_increments_count_witness :
    List.count CounterKind.succeededQueries
        [CounterKind.succeededQueries, CounterKind.failedQueries,
          CounterKind.succeededQueries] = 2 ∧
      counterOf
        (runIncrements zeroCounter
          [CounterKind.succeededQueries, CounterKind.failedQueries,
            CounterKind.succeededQueries]) CounterKind.succeededQueries = 2 :=
  ⟨by decide,
    concurrent_increments_count
      [CounterKind.succeededQueries, CounterKind.failedQueries,
        CounterKind.succeededQueries]
      CounterKind.succeededQueries 2 (by decide)⟩

end Squangle

